import Mathlib

/-!
Verification of the StreamAlert CLI configuration layer
(`stream_alert_cli/config.py`) and the Athena Terraform generator
(`stream_alert_cli/terraform/athena.py`).

The Python data is JSON-like: nested dictionaries, lists, strings,
numbers and booleans.  Dictionaries are embedded as association lists
`List (String × JValue)`; keys are unique in every dictionary the code
builds (Python dictionaries cannot hold a duplicate key), and an ordered
association list also represents `collections.OrderedDict`, whose
insertion order the "logs" code path relies on.  A plain (unordered)
Python dict has no observable key order; where the code makes an order
observable (`json.dumps` with `sort_keys=True`) we canonicalise by
sorting keys, see `sortKeysRec` below.

Python exceptions (`KeyError`, `TypeError`, `AttributeError`) are
embedded as an error type `PyErr`; fallible steps return `Except`.
Mutating methods of `CLIConfig` return the new configuration together
with flags recording whether `self.write()` ran and whether a message
was emitted through `LOGGER_CLI.warn` / `LOGGER_CLI.error`; when an
exception escapes mid-operation the error also carries the in-memory
configuration at the moment of the raise, so partial mutation is
modelled faithfully.
-/

/-- A JSON-like Python value (dict / list / str / int / bool / None). -/
inductive JValue where
  | null : JValue
  | bool : Bool → JValue
  | num : Int → JValue
  | str : String → JValue
  | list : List JValue → JValue
  | obj : List (String × JValue) → JValue

/-- Python exceptions that the embedded code can raise. -/
inductive PyErr where
  | keyError : String → PyErr
  | typeError : PyErr
  | attributeError : PyErr
  | missingAthenaConfiguration : PyErr
deriving DecidableEq

/-- First-match lookup in an association list (Python dict `d[k]` /
`k in d`; keys are unique in every dict the code builds). -/
def lookupKey : List (String × JValue) → String → Option JValue
  | [], _ => none
  | p :: ps, k => if p.1 = k then some p.2 else lookupKey ps k

/-- Python dict assignment `d[k] = v`: replace in place when the key is
present (its position is retained, as for `OrderedDict`), append
otherwise. -/
def setKeyList : List (String × JValue) → String → JValue → List (String × JValue)
  | [], k, v => [(k, v)]
  | p :: ps, k, v => if p.1 = k then (k, v) :: ps else p :: setKeyList ps k v

/-- Subscripting `v[k]` on a JSON value: dict lookup, `KeyError` when the key is
missing, `TypeError` when `v` is not a dict (string/int subscripts other
than dict keys do not occur in the embedded code). -/
def JValue.getItem : JValue → String → Except PyErr JValue
  | .obj ps, k =>
      match lookupKey ps k with
      | some v => .ok v
      | none => .error (.keyError k)
  | _, _ => .error .typeError

/-- Defaulting lookup `v.get(k, d)` on a JSON value: `AttributeError` when `v` is not a
dict (only dicts have a `.get` method among the JSON values). -/
def JValue.dictGet : JValue → String → JValue → Except PyErr JValue
  | .obj ps, k, d => .ok ((lookupKey ps k).getD d)
  | _, _, _ => .error .attributeError

/-- Chained subscripting `v[k1][k2]...`. -/
def JValue.getPath : JValue → List String → Except PyErr JValue
  | v, [] => .ok v
  | v, k :: ks =>
      match v.getItem k with
      | .error e => .error e
      | .ok w => w.getPath ks

/-- Chained subscript assignment `v[k1][k2]...[kn] = x`: every prefix of
the path must already exist (Python raises `KeyError` on a missing
intermediate dict); the final key is created or overwritten. -/
def JValue.setPath : JValue → List String → JValue → Except PyErr JValue
  | .obj ps, [k], x => .ok (.obj (setKeyList ps k x))
  | .obj ps, k :: k2 :: ks, x =>
      match lookupKey ps k with
      | none => .error (.keyError k)
      | some w =>
          match w.setPath (k2 :: ks) x with
          | .error e => .error e
          | .ok w2 => .ok (.obj (setKeyList ps k w2))
  | _, [], _ => .error .typeError
  | _, _ :: _, _ => .error .typeError

/-- Python `v == s` for a string literal `s`: a JSON value equals a
string exactly when it is that string (values of different types
compare unequal in Python). -/
def isStrEq (v : JValue) (s : String) : Bool :=
  match v with
  | .str t => t == s
  | _ => false

/-- Python `k in v`: key membership for dicts, element membership for
lists, substring test for strings, `TypeError` otherwise. -/
def pyContains (v : JValue) (k : String) : Except PyErr Bool :=
  match v with
  | .obj ps => .ok (lookupKey ps k).isSome
  | .list xs => .ok (xs.any fun x => isStrEq x k)
  | .str s => .ok (decide ((s.splitOn k).length ≠ 1))
  | _ => .error .typeError

/-- One left-to-right scan of Python `str.replace`: at skip count 0 a
match of `pat` emits `repl` and switches to skipping the rest of the
matched occurrence; occurrences never overlap.  (`pat` is always the
non-empty sentinel in the embedded code; the Python edge case of an
empty pattern is not reproduced.) -/
def replaceGo (pat repl : List Char) : List Char → Nat → List Char
  | [], _ => []
  | c :: cs, 0 =>
      if pat.isPrefixOf (c :: cs) then repl ++ replaceGo pat repl cs (pat.length - 1)
      else c :: replaceGo pat repl cs 0
  | _ :: cs, k + 1 => replaceGo pat repl cs k

/-- Python `s.replace(pat, repl)` (all occurrences, left to right). -/
def pyReplace (s pat repl : String) : String :=
  String.mk (replaceGo pat.toList repl.toList s.toList 0)

/-- Outcome of a mutating `CLIConfig` method that returned normally:
the new in-memory configuration, whether `self.write()` ran, whether a
`LOGGER_CLI.warn` was emitted, whether a `LOGGER_CLI.error` was
emitted. -/
structure OpResult where
  config : JValue
  wrote : Bool
  warned : Bool
  errored : Bool

/-- A mutating method of `CLIConfig` either returns an `OpResult` or raise; a raised
exception carries the in-memory configuration at the moment of the
raise. -/
abbrev OpOutcome := Except (PyErr × JValue) OpResult

/-- In-memory configuration after an operation (unchanged by a report-
and-return failure; the carried state on an exception). -/
def stateAfter (r : OpOutcome) : JValue :=
  match r with
  | .ok o => o.config
  | .error e => e.2

/-- Whether the operation wrote the configuration to disk. -/
def wroteOf (r : OpOutcome) : Bool :=
  match r with
  | .ok o => o.wrote
  | .error _ => false

/-- Project the result of an operation known to return normally. -/
def okResult (r : OpOutcome) : OpResult :=
  match r with
  | .ok o => o
  | .error e => ⟨e.2, false, false, false⟩

/-- The placeholder sentinel for an unconfigured prefix. -/
def pfxSentinel : String := "PREFIX_GOES_HERE"

/-- The config key of the Athena refresh configuration under "lambda". -/
def athenaKey : String := "athena_partition_refresh_config"

/-- The method `CLIConfig.set_prefix`: a non-string argument is rejected with a
logged error and no mutation; a string argument is written into
`global.account.prefix`, then the sentinel is substituted in the
Terraform state bucket and in both processor source buckets, and the
configuration is persisted. -/
def set_prefix_op (cfg : JValue) (pfx : JValue) : OpOutcome :=
  match pfx with
  | .str p =>
      match cfg.setPath ["global", "account", "prefix"] (.str p) with
      | .error e => .error (e, cfg)
      | .ok c1 =>
          match c1.getPath ["global", "terraform", "tfstate_bucket"] with
          | .error e => .error (e, c1)
          | .ok (.str tfs) =>
              match c1.setPath ["global", "terraform", "tfstate_bucket"]
                  (.str (pyReplace tfs pfxSentinel p)) with
              | .error e => .error (e, c1)
              | .ok c2 =>
                  match c2.getPath ["lambda", "alert_processor_config", "source_bucket"] with
                  | .error e => .error (e, c2)
                  | .ok (.str abs_) =>
                      match c2.setPath ["lambda", "alert_processor_config", "source_bucket"]
                          (.str (pyReplace abs_ pfxSentinel p)) with
                      | .error e => .error (e, c2)
                      | .ok c3 =>
                          match c3.getPath ["lambda", "rule_processor_config", "source_bucket"] with
                          | .error e => .error (e, c3)
                          | .ok (.str rbs) =>
                              match c3.setPath ["lambda", "rule_processor_config", "source_bucket"]
                                  (.str (pyReplace rbs pfxSentinel p)) with
                              | .error e => .error (e, c3)
                              | .ok c4 => .ok ⟨c4, true, false, false⟩
                          -- `.replace` on a non-string raises AttributeError
                          | .ok _ => .error (.attributeError, c3)
                  | .ok _ => .error (.attributeError, c2)
          | .ok _ => .error (.attributeError, c1)
  | _ => .ok ⟨cfg, false, false, true⟩

/-- The check `re.search(r'\A\d{12}\Z', s)`: the whole of `s` is
exactly twelve decimal digits. -/
def matchesAccountIdPattern (s : String) : Bool :=
  s.length == 12 && s.toList.all Char.isDigit

/-- The method `CLIConfig.set_aws_account_id`: an argument failing the 12-digit
check is rejected with a logged error and no mutation; otherwise the id
is stored under `global.account.aws_account_id` and persisted. -/
def set_aws_account_id (cfg : JValue) (aws_account_id : String) : OpOutcome :=
  if matchesAccountIdPattern aws_account_id then
    match cfg.setPath ["global", "account", "aws_account_id"] (.str aws_account_id) with
    | .error e => .error (e, cfg)
    | .ok c => .ok ⟨c, true, false, false⟩
  else .ok ⟨cfg, false, false, true⟩

/-- The literal default Athena configuration template built by
`CLIConfig.generate_athena`, with the source bucket passed in (it is
the placeholder bucket, or the rule processor's bucket when the prefix
was already customised). -/
def athenaTemplate (sourceBucket : JValue) : JValue :=
  .obj [
    ("enabled", .bool true),
    ("enable_metrics", .bool false),
    ("current_version", .str "$LATEST"),
    ("refresh_type", .obj [
      ("add_hive_partition", .obj []),
      ("repair_hive_table", .obj [])]),
    ("handler", .str "stream_alert.athena_partition_refresh.main.handler"),
    ("timeout", .str "60"),
    ("memory", .str "128"),
    ("log_level", .str "info"),
    ("source_bucket", sourceBucket),
    ("source_current_hash", .str "<auto_generated>"),
    ("source_object_key", .str "<auto_generated>"),
    ("third_party_libraries", .list [.str "backoff"])]

/-- The method `CLIConfig.generate_athena`: when the Athena refresh configuration
already exists under "lambda" it warns and no-ops; otherwise the
template is inserted (with the rule processor's source bucket when
`global.account.prefix` is no longer the sentinel) and persisted. -/
def generate_athena_cfg (cfg : JValue) : OpOutcome :=
  match cfg.getItem "lambda" with
  | .error e => .error (e, cfg)
  | .ok lam =>
      match pyContains lam athenaKey with
      | .error e => .error (e, cfg)
      | .ok true => .ok ⟨cfg, false, true, false⟩
      | .ok false =>
          match cfg.getPath ["global", "account", "prefix"] with
          | .error e => .error (e, cfg)
          | .ok pv =>
              if isStrEq pv pfxSentinel then
                match cfg.setPath ["lambda", athenaKey]
                    (athenaTemplate (.str "PREFIX_GOES_HERE.streamalert.source")) with
                | .error e => .error (e, cfg)
                | .ok c => .ok ⟨c, true, false, false⟩
              else
                match cfg.getPath ["lambda", "rule_processor_config", "source_bucket"] with
                | .error e => .error (e, cfg)
                | .ok rb =>
                    match cfg.setPath ["lambda", athenaKey] (athenaTemplate rb) with
                    | .error e => .error (e, cfg)
                    | .ok c => .ok ⟨c, true, false, false⟩

/-- The method `CLIConfig.set_athena_lambda_enable`: when no Athena refresh
configuration exists under "lambda" it logs an error and no-ops;
otherwise it sets the enabled flag to true and persists. -/
def set_athena_lambda_enable (cfg : JValue) : OpOutcome :=
  match cfg.getItem "lambda" with
  | .error e => .error (e, cfg)
  | .ok lam =>
      match pyContains lam athenaKey with
      | .error e => .error (e, cfg)
      | .ok false => .ok ⟨cfg, false, false, true⟩
      | .ok true =>
          match cfg.setPath ["lambda", athenaKey, "enabled"] (.bool true) with
          | .error e => .error (e, cfg)
          | .ok c => .ok ⟨c, true, false, false⟩

/-- Insert one pair into a key-sorted association list. -/
def insertSorted (p : String × JValue) : List (String × JValue) → List (String × JValue)
  | [] => [p]
  | q :: qs => if p.1 ≤ q.1 then p :: q :: qs else q :: insertSorted p qs

/-- Sort an association list by key (insertion sort). -/
def sortPairsBy (ps : List (String × JValue)) : List (String × JValue) :=
  ps.foldr insertSorted []

mutual
/-- Canonical key order for a value whose dictionaries carry no
observable order: every dictionary's pairs sorted by key, recursively.
This is both the order of a `json.dumps(..., sort_keys=True)` output
and the canonical representative of a plain (unordered) Python dict. -/
def sortKeysRec : JValue → JValue
  | .null => .null
  | .bool b => .bool b
  | .num n => .num n
  | .str s => .str s
  | .list xs => .list (sortKeysList xs)
  | .obj ps => .obj (sortPairsBy (sortKeysPairs ps))

/-- The map of `sortKeysRec` over list elements. -/
def sortKeysList : List JValue → List JValue
  | [] => []
  | x :: xs => sortKeysRec x :: sortKeysList xs

/-- The map of `sortKeysRec` over the values of an association list. -/
def sortKeysPairs : List (String × JValue) → List (String × JValue)
  | [] => []
  | (k, v) :: ps => (k, sortKeysRec v) :: sortKeysPairs ps
end

/-- The effect of `CLIConfig._config_reader` on the parsed contents of a section
file: the "logs" section is parsed with `object_pairs_hook=OrderedDict`
so the textual key order of the file is kept; every other section is
parsed into plain dicts, whose key order is not observable — the
canonical (sorted) representative stands for it. -/
def readSectionValue (key : String) (v : JValue) : JValue :=
  if key = "logs" then v else sortKeysRec v

/-- The `CLIConfig._config_writer` output for one section of
`CLIConfig.write`: the "logs" file is dumped with `sort_keys=False`
(insertion order kept); every other file is dumped with
`sort_keys=True` (keys sorted at every nesting level). -/
def writeSectionValue (key : String) (v : JValue) : JValue :=
  if key = "logs" then v else sortKeysRec v

/-- The on-disk configuration directory: the parsed contents of each
`conf/<name>.json` (keys in the file's textual order), and likewise for
each `conf/clusters/<name>.json`.  File names within a directory are
distinct, which theorems assume as a `Nodup` hypothesis. -/
structure Disk where
  sections : List (String × JValue)
  clusters : List (String × JValue)

/-- Loading the section files in directory order: each file is parsed
through `readSectionValue` and assigned into the configuration dict. -/
def loadSections : List (String × JValue) → List (String × JValue) → List (String × JValue)
  | [], acc => acc
  | p :: rest, acc => loadSections rest (setKeyList acc p.1 (readSectionValue p.1 p.2))

/-- Loading the cluster files: each is parsed into plain dicts and
assigned into the "clusters" dict. -/
def loadClusters : List (String × JValue) → List (String × JValue) → List (String × JValue)
  | [], acc => acc
  | p :: rest, acc => loadClusters rest (setKeyList acc p.1 (sortKeysRec p.2))

/-- The method `CLIConfig.load` (with the constructor's initial
`config = {'clusters': {}}`): cluster files populate the "clusters"
sub-dict, section files populate the top level. -/
def loadDisk (d : Disk) : JValue :=
  .obj (loadSections d.sections [("clusters", .obj (loadClusters d.clusters []))])

/-- The pairs of the "clusters" sub-dict of a configuration (the
constructor guarantees the key exists and holds a dict). -/
def clustersPairsOf (ps : List (String × JValue)) : List (String × JValue) :=
  match lookupKey ps "clusters" with
  | some (.obj cs) => cs
  | _ => []

/-- The method `CLIConfig.write`: every top-level section except "clusters" is
dumped to `<key>.json` — "logs" with `sort_keys=False`, the rest with
`sort_keys=True` — and every cluster to `clusters/<key>.json` with
`sort_keys=True`.  (The configuration is an `obj` by construction.) -/
def writeConfig (cfg : JValue) : Disk :=
  match cfg with
  | .obj ps =>
      ⟨(ps.filter fun p => p.1 ≠ "clusters").map fun p => (p.1, writeSectionValue p.1 p.2),
       (clustersPairsOf ps).map fun p => (p.1, sortKeysRec p.2)⟩
  | _ => ⟨[], []⟩

/-- The method `CLIConfig.__setitem__`: replace a top-level section in memory
(the subsequent `self.write()` is modelled by applying `writeConfig` to
the result). -/
def mutateSection (cfg : JValue) (k : String) (v : JValue) : JValue :=
  match cfg with
  | .obj ps => .obj (setKeyList ps k v)
  | other => other

/-- The sequence of schema field keys of one log type inside the "logs"
section, in stored order. -/
def schemaFieldKeys (logsSection : JValue) (logType : String) : Option (List String) :=
  match logsSection.getPath [logType, "schema"] with
  | .ok (.obj ps) => some (ps.map Prod.fst)
  | _ => none

/-- Whether a value may be a Python set element (dicts and lists are
unhashable). -/
def jhashable : JValue → Bool
  | .list _ => false
  | .obj _ => false
  | _ => true

/-- Python `set(v)`: the elements of a list (each must be hashable), the
keys of a dict, the characters of a string; `TypeError` otherwise.  The
result here is the underlying element list before deduplication —
deduplication happens in `pySetInsert`. -/
def pyToElems : JValue → Except PyErr (List JValue)
  | .list xs => if xs.all jhashable then .ok xs else .error .typeError
  | .obj ps => .ok (ps.map fun p => .str p.1)
  | .str s => .ok (s.toList.map fun c => .str (String.mk [c]))
  | _ => .error .typeError

/-- Python `==` on set elements: all set elements in the embedded code
are hashable, hence flat (no nested list or dict), so a flat comparison
decides their equality. -/
def jflatEq (a b : JValue) : Bool :=
  match a, b with
  | .null, .null => true
  | .bool x, .bool y => x == y
  | .num x, .num y => x == y
  | .str x, .str y => x == y
  | _, _ => false

/-- Adding one element to a Python set, represented as its element list
in insertion order without duplicates. -/
def pySetInsert (acc : List JValue) (x : JValue) : List JValue :=
  if acc.any fun y => jflatEq y x then acc else acc ++ [x]

/-- The `data_buckets` loop of `terraform/athena.py`: iterate the
`refresh_type` dict and union every entry's bucket collection into one
set. -/
def collect_buckets : List (String × JValue) → List JValue → Except PyErr (List JValue)
  | [], acc => .ok acc
  | p :: rest, acc =>
      match pyToElems p.2 with
      | .error e => .error e
      | .ok elems => collect_buckets rest (elems.foldl pySetInsert acc)

/-- The module block literal assigned to
`athena_dict['module']['stream_alert_athena']` in
`terraform/athena.py`, wrapped in its two enclosing dict levels (the
`infinitedict` is only ever given this one entry). -/
def athenaModuleFields (handler mem tmo sb sk ll : JValue) (buckets : List JValue)
    (ri cv em pv : JValue) : JValue :=
  .obj [("module", .obj [("stream_alert_athena", .obj [
    ("source", .str "modules/tf_stream_alert_athena"),
    ("lambda_handler", handler),
    ("lambda_memory", mem),
    ("lambda_timeout", tmo),
    ("lambda_s3_bucket", sb),
    ("lambda_s3_key", sk),
    ("lambda_log_level", ll),
    ("athena_data_buckets", .list buckets),
    ("refresh_interval", ri),
    ("current_version", cv),
    ("enable_metrics", em),
    ("prefix", pv)])])]

/-- The function `generate_athena` of `terraform/athena.py`: read the Athena config
from "lambda", compute the metrics flag through the defaulting `.get`
chain, union the refresh-type bucket collections, and assemble the
module dict.  Lookups follow the source's evaluation order, so a
missing key raises (`KeyError`) exactly where the source would. -/
def generate_athena_tf (cfg : JValue) : Except PyErr JValue :=
  match cfg.getItem "lambda" with
  | .error e => .error e
  | .ok lam =>
      match lam.getItem athenaKey with
      | .error e => .error e
      | .ok ac =>
          match cfg.getItem "global" with
          | .error e => .error e
          | .ok gl =>
              match gl.dictGet "infrastructure" (.obj []) with
              | .error e => .error e
              | .ok infra =>
                  match infra.dictGet "metrics" (.obj []) with
                  | .error e => .error e
                  | .ok met =>
                      match met.dictGet "enabled" (.bool false) with
                      | .error e => .error e
                      | .ok em =>
                          match ac.getItem "refresh_type" with
                          | .error e => .error e
                          | .ok (.obj rtPairs) =>
                              match collect_buckets rtPairs [] with
                              | .error e => .error e
                              | .ok buckets =>
                                  match ac.getItem "handler" with
                                  | .error e => .error e
                                  | .ok handler =>
                                      match ac.dictGet "memory" (.str "128") with
                                      | .error e => .error e
                                      | .ok mem =>
                                          match ac.dictGet "timeout" (.str "60") with
                                          | .error e => .error e
                                          | .ok tmo =>
                                              match ac.getItem "source_bucket" with
                                              | .error e => .error e
                                              | .ok sb =>
                                                  match ac.getItem "source_object_key" with
                                                  | .error e => .error e
                                                  | .ok sk =>
                                                      match ac.dictGet "log_level" (.str "info") with
                                                      | .error e => .error e
                                                      | .ok ll =>
                                                          match ac.dictGet "refresh_interval" (.str "rate(10 minutes)") with
                                                          | .error e => .error e
                                                          | .ok ri =>
                                                              match ac.getItem "current_version" with
                                                              | .error e => .error e
                                                              | .ok cv =>
                                                                  match cfg.getPath ["global", "account", "prefix"] with
                                                                  | .error e => .error e
                                                                  | .ok pv =>
                                                                      .ok (athenaModuleFields handler mem tmo sb sk ll buckets ri cv em pv)
                          -- iterating a non-dict `refresh_type` and
                          -- subscripting it with the iterated values
                          -- fails in the source; TypeError stands for it
                          | .ok _ => .error .typeError

/-- A "global" section like the one in the repository's unit test, with
the prefix still unset. -/
def sampleGlobal : JValue :=
  .obj [
    ("account", .obj [
      ("aws_account_id", .str "AWS_ACCOUNT_ID_GOES_HERE"),
      ("kms_key_alias", .str "stream_alert_secrets"),
      ("prefix", .str "PREFIX_GOES_HERE"),
      ("region", .str "us-west-2")]),
    ("terraform", .obj [
      ("tfstate_bucket", .str "PREFIX_GOES_HERE.streamalert.terraform.state"),
      ("tfstate_s3_key", .str "stream_alert_state/terraform.tfstate"),
      ("tfvars", .str "terraform.tfvars")]),
    ("infrastructure", .obj [
      ("monitoring", .obj [
        ("create_sns_topic", .bool true)])])]

/-- A "lambda" section like the one in the repository's unit test (no
Athena configuration yet). -/
def sampleLambda : JValue :=
  .obj [
    ("alert_processor_config", .obj [
      ("handler", .str "stream_alert.alert_processor.main.handler"),
      ("source_bucket", .str "PREFIX_GOES_HERE.streamalert.source"),
      ("source_current_hash", .str "<auto_generated>"),
      ("source_object_key", .str "<auto_generated>"),
      ("third_party_libraries", .list [])]),
    ("rule_processor_config", .obj [
      ("handler", .str "unit-test.handler"),
      ("source_bucket", .str "PREFIX_GOES_HERE.streamalert.source"),
      ("source_current_hash", .str "<auto_generated>"),
      ("source_object_key", .str "<auto_generated>"),
      ("third_party_libraries", .list [.str "jsonpath_rw", .str "netaddr"])])]

/-- A loaded configuration assembled from the sample sections. -/
def sampleConfig : JValue :=
  .obj [
    ("clusters", .obj []),
    ("global", sampleGlobal),
    ("lambda", sampleLambda)]

/-- An Athena refresh configuration whose `refresh_type` holds the two
bucket lists of the specification's worked example. -/
def athenaConfigExample : JValue :=
  .obj [
    ("enabled", .bool true),
    ("current_version", .str "$LATEST"),
    ("refresh_type", .obj [
      ("add_hive_partition", .list [.str "bucket-a", .str "bucket-b"]),
      ("repair_hive_table", .list [.str "bucket-b", .str "bucket-c"])]),
    ("handler", .str "stream_alert.athena_partition_refresh.main.handler"),
    ("source_bucket", .str "abc.streamalert.source"),
    ("source_object_key", .str "<auto_generated>")]

/-- A full configuration for the Terraform generator: the sample global
section plus a lambda section that carries `athenaConfigExample`. -/
def tfConfigExample : JValue :=
  .obj [
    ("global", sampleGlobal),
    ("lambda", .obj [("athena_partition_refresh_config", athenaConfigExample)])]

/-- A configuration whose "lambda" section is present but holds no
Athena refresh configuration. -/
def tfConfigNoAthena : JValue :=
  .obj [("global", sampleGlobal), ("lambda", .obj [])]

/-- A configuration with a complete Athena section but no "global"
section at all (so every segment of
`global.infrastructure.metrics.enabled` is absent). -/
def tfConfigNoGlobal : JValue :=
  .obj [("lambda", .obj [("athena_partition_refresh_config", athenaConfigExample)])]

/-- Two subscript paths diverge when neither is a prefix of the other:
they name disjoint positions of a nested dict, so an assignment at one
cannot be seen through the other. -/
def diverges : List String → List String → Bool
  | [], _ => false
  | _ :: _, [] => false
  | a :: ps, b :: qs => a != b || diverges ps qs

/-- A "logs" section in the shape of the repository's unit test: field
order inside each schema is meaningful. -/
def sampleLogs : JValue :=
  .obj [
    ("json_test", .obj [
      ("parser", .str "json"),
      ("schema", .obj [
        ("key_01", .str "integer"),
        ("key_02", .str "string")])]),
    ("csv_test", .obj [
      ("parser", .str "csv"),
      ("schema", .obj [
        ("key1", .list []),
        ("key2", .str "string"),
        ("key3", .str "integer"),
        ("key9", .str "boolean"),
        ("key10", .obj []),
        ("key11", .str "float")])])]

/-- An on-disk configuration directory with the three sample section
files and no cluster files. -/
def sampleDisk : Disk :=
  ⟨[("global", sampleGlobal), ("lambda", sampleLambda), ("logs", sampleLogs)], []⟩

/-! ## Lemma zone -/

/-! ## Association-list lemmas -/

theorem lookupKey_setKeyList_self (ps : List (String × JValue)) (k : String) (v : JValue) :
    lookupKey (setKeyList ps k v) k = some v := by
  induction ps with
  | nil => simp [setKeyList, lookupKey]
  | cons p ps ih =>
      by_cases h : p.1 = k
      · simp [setKeyList, h, lookupKey]
      · simp [setKeyList, h, lookupKey, ih]

theorem lookupKey_setKeyList_ne (ps : List (String × JValue)) (k k2 : String) (v : JValue)
    (h : k2 ≠ k) : lookupKey (setKeyList ps k v) k2 = lookupKey ps k2 := by
  have hk : ¬ k = k2 := fun hh => h hh.symm
  induction ps with
  | nil =>
      simp only [setKeyList, lookupKey]
      rw [if_neg hk]
  | cons p ps ih =>
      obtain ⟨pk, pv⟩ := p
      by_cases hp : pk = k
      · subst hp
        simp only [setKeyList, if_pos rfl, lookupKey]
        rw [if_neg hk, if_neg hk]
      · simp only [setKeyList, if_neg hp, lookupKey]
        by_cases hq : pk = k2
        · rw [if_pos hq, if_pos hq]
        · rw [if_neg hq, if_neg hq, ih]

theorem keys_setKeyList (ps : List (String × JValue)) (k : String) (v : JValue) :
    (setKeyList ps k v).map Prod.fst = ps.map Prod.fst
      ∨ (setKeyList ps k v).map Prod.fst = ps.map Prod.fst ++ [k] := by
  induction ps with
  | nil => simp [setKeyList]
  | cons p ps ih =>
      by_cases hp : p.1 = k
      · left; simp [setKeyList, hp]
      · rcases ih with ih | ih
        · left; simp [setKeyList, hp, ih]
        · right; simp [setKeyList, hp, ih]

theorem mem_keys_setKeyList (ps : List (String × JValue)) (k k2 : String) (v : JValue)
    (h : k2 ∈ (setKeyList ps k v).map Prod.fst) : k2 ∈ ps.map Prod.fst ∨ k2 = k := by
  rcases keys_setKeyList ps k v with hk | hk <;> rw [hk] at h
  · exact Or.inl h
  · simpa using h

theorem nodup_keys_setKeyList (ps : List (String × JValue)) (k : String) (v : JValue)
    (h : (ps.map Prod.fst).Nodup) : ((setKeyList ps k v).map Prod.fst).Nodup := by
  induction ps with
  | nil => simp [setKeyList]
  | cons p ps ih =>
      rw [List.map_cons, List.nodup_cons] at h
      by_cases hp : p.1 = k
      · simp only [setKeyList, if_pos hp, List.map_cons, List.nodup_cons]
        exact ⟨hp ▸ h.1, h.2⟩
      · simp only [setKeyList, if_neg hp, List.map_cons, List.nodup_cons]
        refine ⟨?_, ih h.2⟩
        intro hmem
        rcases mem_keys_setKeyList ps k p.1 v hmem with hm | hm
        · exact h.1 hm
        · exact hp hm

/-! ## Frame lemmas for path assignment -/

theorem getPath_obj_cons (ps : List (String × JValue)) (k : String) (ks : List String)
    (w : JValue) (h : lookupKey ps k = some w) :
    (JValue.obj ps).getPath (k :: ks) = w.getPath ks := by
  simp [JValue.getPath, JValue.getItem, h]

theorem getPath_obj_cons_none (ps : List (String × JValue)) (k : String) (ks : List String)
    (h : lookupKey ps k = none) :
    (JValue.obj ps).getPath (k :: ks) = .error (.keyError k) := by
  simp [JValue.getPath, JValue.getItem, h]

theorem getPath_setPath_self (v x v2 : JValue) (p : List String)
    (h : v.setPath p x = .ok v2) : v2.getPath p = .ok x := by
  induction p generalizing v v2 with
  | nil => cases v <;> simp [JValue.setPath] at h
  | cons k ks ih =>
      cases v with
      | obj ps =>
          cases ks with
          | nil =>
              simp only [JValue.setPath] at h
              cases h
              simp [JValue.getPath, JValue.getItem, lookupKey_setKeyList_self]
          | cons k2 ks2 =>
              cases hl : lookupKey ps k with
              | none => simp [JValue.setPath, hl] at h
              | some w =>
                  cases hw : w.setPath (k2 :: ks2) x with
                  | error e => simp [JValue.setPath, hl, hw] at h
                  | ok w2 =>
                      simp only [JValue.setPath, hl, hw, Except.ok.injEq] at h
                      subst h
                      rw [getPath_obj_cons _ _ _ w2 (lookupKey_setKeyList_self ps k w2)]
                      exact ih w w2 hw
      | _ => simp [JValue.setPath] at h

theorem getPath_setPath_diverge (x : JValue) (p : List String) :
    ∀ (v v2 : JValue) (q : List String), v.setPath p x = .ok v2 →
      diverges p q = true → v2.getPath q = v.getPath q := by
  induction p with
  | nil => intro v v2 q h hd; simp [diverges] at hd
  | cons a ps ih =>
      intro v v2 q h hd
      cases q with
      | nil => simp [diverges] at hd
      | cons b qs =>
          cases v with
          | obj ls =>
              cases ps with
              | nil =>
                  simp only [JValue.setPath, Except.ok.injEq] at h
                  subst h
                  have hab : ¬ a = b := by simpa [diverges] using hd
                  have hba : b ≠ a := fun hh => hab hh.symm
                  have hlk := lookupKey_setKeyList_ne ls a b x hba
                  cases hlb : lookupKey ls b with
                  | none =>
                      rw [getPath_obj_cons_none _ _ _ (hlk.trans hlb),
                        getPath_obj_cons_none _ _ _ hlb]
                  | some u =>
                      rw [getPath_obj_cons _ _ _ u (hlk.trans hlb),
                        getPath_obj_cons _ _ _ u hlb]
              | cons a2 ps2 =>
                  cases hl : lookupKey ls a with
                  | none => simp [JValue.setPath, hl] at h
                  | some w =>
                      cases hw : w.setPath (a2 :: ps2) x with
                      | error e => simp [JValue.setPath, hl, hw] at h
                      | ok w2 =>
                          simp only [JValue.setPath, hl, hw, Except.ok.injEq] at h
                          subst h
                          by_cases hab : a = b
                          · subst hab
                            have hd2 : diverges (a2 :: ps2) qs = true := by
                              simpa [diverges] using hd
                            rw [getPath_obj_cons _ _ _ w2 (lookupKey_setKeyList_self ls a w2),
                              getPath_obj_cons _ _ _ w hl]
                            exact ih _ _ _ hw hd2
                          · have hba : b ≠ a := fun hh => hab hh.symm
                            have hlk := lookupKey_setKeyList_ne ls a b w2 hba
                            cases hlb : lookupKey ls b with
                            | none =>
                                rw [getPath_obj_cons_none _ _ _ (hlk.trans hlb),
                                  getPath_obj_cons_none _ _ _ hlb]
                            | some u =>
                                rw [getPath_obj_cons _ _ _ u (hlk.trans hlb),
                                  getPath_obj_cons _ _ _ u hlb]
          | _ => simp [JValue.setPath] at h

/-! ## Loading and writing the configuration directory -/

theorem lookupKey_loadSections_notmem (key : String) :
    ∀ (ss acc : List (String × JValue)), key ∉ ss.map Prod.fst →
      lookupKey (loadSections ss acc) key = lookupKey acc key := by
  intro ss
  induction ss with
  | nil => intro acc h; rfl
  | cons p ps ih =>
      intro acc h
      simp only [List.map_cons, List.mem_cons, not_or] at h
      rw [loadSections, ih _ h.2, lookupKey_setKeyList_ne _ _ _ _ h.1]

theorem lookupKey_loadSections_mem (key : String) (v : JValue) :
    ∀ (ss acc : List (String × JValue)), (ss.map Prod.fst).Nodup →
      lookupKey ss key = some v →
      lookupKey (loadSections ss acc) key = some (readSectionValue key v) := by
  intro ss
  induction ss with
  | nil => intro acc hnd h; simp [lookupKey] at h
  | cons p ps ih =>
      intro acc hnd h
      rw [List.map_cons, List.nodup_cons] at hnd
      rw [loadSections]
      by_cases hp : p.1 = key
      · rw [lookupKey, if_pos hp] at h
        injection h with h2
        subst h2
        have hmem : key ∉ ps.map Prod.fst := hp ▸ hnd.1
        rw [lookupKey_loadSections_notmem _ _ _ hmem, hp, lookupKey_setKeyList_self]
      · rw [lookupKey, if_neg hp] at h
        exact ih _ hnd.2 h

theorem nodup_keys_loadSections :
    ∀ (ss acc : List (String × JValue)), ((acc.map Prod.fst).Nodup) →
      ((loadSections ss acc).map Prod.fst).Nodup := by
  intro ss
  induction ss with
  | nil => intro acc h; exact h
  | cons p ps ih =>
      intro acc h
      rw [loadSections]
      exact ih _ (nodup_keys_setKeyList _ _ _ h)

theorem lookupKey_filterMap (g : String → JValue → JValue) (P : String → Bool)
    (key : String) (hP : P key = true) :
    ∀ ps : List (String × JValue),
      lookupKey ((ps.filter fun p => P p.1).map fun p => (p.1, g p.1 p.2)) key
        = (lookupKey ps key).map (g key) := by
  intro ps
  induction ps with
  | nil => rfl
  | cons p ps ih =>
      by_cases hp : p.1 = key
      · have hPp : P p.1 = true := by rw [hp]; exact hP
        simp [List.filter_cons, hPp, lookupKey, hp, hP]
      · cases hPp : P p.1 with
        | true => simp [List.filter_cons, hPp, lookupKey, hp, ih]
        | false => simp [List.filter_cons, hPp, lookupKey, hp, ih]

theorem keys_filterMap (g : String → JValue → JValue) (P : String → Bool) :
    ∀ ps : List (String × JValue),
      (((ps.filter fun p => P p.1).map fun p => (p.1, g p.1 p.2)).map Prod.fst)
        = (ps.map Prod.fst).filter P := by
  intro ps
  induction ps with
  | nil => rfl
  | cons p ps ih =>
      cases hPp : P p.1 with
      | true => simp [List.filter_cons, hPp, ih]
      | false => simp [List.filter_cons, hPp, ih]

/-- C1: a configuration whose "logs" section was loaded from disk keeps
the on-disk order of schema field keys: loading parses "logs" as an
ordered mapping (`readSectionValue` is the identity for "logs"), and
`CLIConfig.write` dumps the "logs" section without sorting keys
(`writeSectionValue` is the identity for "logs"), so after Load,
mutate-another-section, Save, Load the "logs" section — hence every log
type's sequence of schema field keys — is exactly the value parsed from
disk before. -/
theorem logs_roundtrip_preserves_field_order
    (d : Disk) (v w : JValue) (k : String)
    (hnd : (d.sections.map Prod.fst).Nodup)
    (hlogs : lookupKey d.sections "logs" = some v)
    (hk : k ≠ "logs") :
    (loadDisk d).getItem "logs" = .ok v ∧
    (loadDisk (writeConfig (mutateSection (loadDisk d) k w))).getItem "logs" = .ok v := by
  have hbase : ((([("clusters", JValue.obj (loadClusters d.clusters []))]).map
      Prod.fst).Nodup) := by simp
  -- the loaded configuration holds the logs file verbatim
  have h1 : lookupKey (loadSections d.sections
      [("clusters", .obj (loadClusters d.clusters []))]) "logs" = some v := by
    have := lookupKey_loadSections_mem "logs" v d.sections
      [("clusters", .obj (loadClusters d.clusters []))] hnd hlogs
    rwa [readSectionValue, if_pos rfl] at this
  have hget1 : (loadDisk d).getItem "logs" = .ok v := by
    rw [loadDisk, JValue.getItem, h1]
  refine ⟨hget1, ?_⟩
  -- name the loaded top-level pairs
  set ps1 := loadSections d.sections
    [("clusters", .obj (loadClusters d.clusters []))] with hps1
  have hnd1 : (ps1.map Prod.fst).Nodup := nodup_keys_loadSections _ _ hbase
  -- mutating another section keeps the logs entry
  have h2 : lookupKey (setKeyList ps1 k w) "logs" = some v := by
    rw [lookupKey_setKeyList_ne _ _ _ _ (fun hh => hk hh.symm)]
    exact h1
  have hnd2 : ((setKeyList ps1 k w).map Prod.fst).Nodup := nodup_keys_setKeyList _ _ _ hnd1
  -- the written section files still hold the logs value verbatim
  have h3 : lookupKey (((setKeyList ps1 k w).filter fun p => p.1 ≠ "clusters").map
      fun p => (p.1, writeSectionValue p.1 p.2)) "logs" = some v := by
    rw [lookupKey_filterMap writeSectionValue (fun s => decide (s ≠ "clusters")) "logs"
      (by decide)]
    rw [h2]
    simp [writeSectionValue]
  have hnd3 : (((((setKeyList ps1 k w).filter fun p => p.1 ≠ "clusters").map
      fun p => (p.1, writeSectionValue p.1 p.2)).map Prod.fst)).Nodup := by
    rw [keys_filterMap writeSectionValue (fun s => decide (s ≠ "clusters"))]
    exact hnd2.filter _
  -- reloading parses the logs file verbatim again
  have hmut : mutateSection (loadDisk d) k w = .obj (setKeyList ps1 k w) := by
    rw [loadDisk, mutateSection]
  rw [hmut, writeConfig]
  have h4 := lookupKey_loadSections_mem "logs" v _
    [("clusters", .obj (loadClusters (((clustersPairsOf (setKeyList ps1 k w))).map
      fun p => (p.1, sortKeysRec p.2)) []))] hnd3 h3
  rw [readSectionValue, if_pos rfl] at h4
  rw [loadDisk, JValue.getItem, h4]

/-- Witness for C1 at the repository's unit-test configuration: the
"logs" file of `sampleDisk` survives a load, a mutation of the "global"
section, a save, and a reload unchanged. -/
theorem logs_roundtrip_preserves_field_order_witness :
    (loadDisk sampleDisk).getItem "logs" = .ok sampleLogs ∧
    (loadDisk (writeConfig (mutateSection (loadDisk sampleDisk) "global"
      (.obj [])))).getItem "logs" = .ok sampleLogs :=
  logs_roundtrip_preserves_field_order sampleDisk sampleLogs (.obj []) "global"
    (by decide) rfl (by decide)

/-! ## Account id validation (C4) -/

/-- C4: `set_aws_account_id` succeeds exactly on strings of twelve
decimal digits (`matchesAccountIdPattern` embeds the regular expression
check): a failing argument is reported as a validation error with no
mutation and no write; a passing argument is stored under
`global.account.aws_account_id`, the configuration is persisted, and
every field away from that path is unchanged. -/
theorem set_aws_account_id_validation (cfg : JValue) (a : String) :
    (matchesAccountIdPattern a = false →
      set_aws_account_id cfg a = .ok ⟨cfg, false, false, true⟩) ∧
    (matchesAccountIdPattern a = true →
      ∀ r, set_aws_account_id cfg a = .ok r →
        r.config.getPath ["global", "account", "aws_account_id"] = .ok (.str a) ∧
        r.wrote = true ∧ r.errored = false ∧
        ∀ q, diverges ["global", "account", "aws_account_id"] q = true →
          r.config.getPath q = cfg.getPath q) := by
  constructor
  · intro hv
    rw [set_aws_account_id, if_neg (by simp [hv])]
  · intro hv r hr
    rw [set_aws_account_id, if_pos (by simp [hv])] at hr
    cases hset : cfg.setPath ["global", "account", "aws_account_id"] (.str a) with
    | error e => rw [hset] at hr; exact Except.noConfusion hr
    | ok c =>
        rw [hset] at hr
        injection hr with hr
        subst hr
        refine ⟨getPath_setPath_self _ _ _ _ hset, rfl, rfl, ?_⟩
        intro q hq
        exact getPath_setPath_diverge _ _ _ _ _ hset hq

/-- Witness for C4: the specification's three sample calls — a valid
id is stored and persisted, while a short id and a non-digit id are
both rejected without mutation. -/
theorem set_aws_account_id_validation_witness :
    set_aws_account_id sampleConfig "12345" = .ok ⟨sampleConfig, false, false, true⟩ ∧
    set_aws_account_id sampleConfig "12345678901a" = .ok ⟨sampleConfig, false, false, true⟩ ∧
    (okResult (set_aws_account_id sampleConfig "123456789012")).config.getPath
      ["global", "account", "aws_account_id"] = .ok (.str "123456789012") := by
  refine ⟨(set_aws_account_id_validation sampleConfig "12345").1 (by decide),
    (set_aws_account_id_validation sampleConfig "12345678901a").1 (by decide), ?_⟩
  exact ((set_aws_account_id_validation sampleConfig "123456789012").2 (by decide)
    (okResult (set_aws_account_id sampleConfig "123456789012")) rfl).1

/-! ## Prefix type check (C3) -/

/-- C3 counterexample: `set_prefix` accepts the empty string — the call
does not fail, it writes, and it changes `global.account.prefix` from
the sentinel to the empty string, so "the empty string fails and leaves
the configuration unchanged" is false on the code. -/
theorem set_prefix_empty_string_counterexample :
    wroteOf (set_prefix_op sampleConfig (.str "")) = true ∧
    (stateAfter (set_prefix_op sampleConfig (.str ""))).getPath
      ["global", "account", "prefix"] = .ok (.str "") ∧
    sampleConfig.getPath ["global", "account", "prefix"]
      = .ok (.str "PREFIX_GOES_HERE") :=
  ⟨rfl, rfl, rfl⟩

/-- C3 (amended): the only validation `set_prefix` performs is a type
check — `isinstance(prefix, (unicode, str))`.  Every non-string
argument is rejected with a logged error, no mutation and no write; a
string argument, the empty string included, passes the check. -/
theorem set_prefix_rejects_non_text (cfg : JValue) (pfx : JValue)
    (h : ∀ s, pfx ≠ JValue.str s) :
    set_prefix_op cfg pfx = .ok ⟨cfg, false, false, true⟩ := by
  cases pfx with
  | str s => exact absurd rfl (h s)
  | null => rfl
  | bool b => rfl
  | num n => rfl
  | list xs => rfl
  | obj ps => rfl

/-- Witness for C3 (amended): a numeric argument is rejected without
mutation or write. -/
theorem set_prefix_rejects_non_text_witness :
    set_prefix_op sampleConfig (.num 3) = .ok ⟨sampleConfig, false, false, true⟩ :=
  set_prefix_rejects_non_text sampleConfig (.num 3) (fun _ h => JValue.noConfusion h)

/-! ## Decomposition of a successful set_prefix -/

theorem set_prefix_ok_decomp (cfg : JValue) (p : String) (r : OpResult)
    (h : set_prefix_op cfg (.str p) = .ok r) :
    ∃ c1 tfs c2 as2 c3 rs c4,
      cfg.setPath ["global", "account", "prefix"] (.str p) = .ok c1 ∧
      c1.getPath ["global", "terraform", "tfstate_bucket"] = .ok (.str tfs) ∧
      c1.setPath ["global", "terraform", "tfstate_bucket"]
        (.str (pyReplace tfs pfxSentinel p)) = .ok c2 ∧
      c2.getPath ["lambda", "alert_processor_config", "source_bucket"] = .ok (.str as2) ∧
      c2.setPath ["lambda", "alert_processor_config", "source_bucket"]
        (.str (pyReplace as2 pfxSentinel p)) = .ok c3 ∧
      c3.getPath ["lambda", "rule_processor_config", "source_bucket"] = .ok (.str rs) ∧
      c3.setPath ["lambda", "rule_processor_config", "source_bucket"]
        (.str (pyReplace rs pfxSentinel p)) = .ok c4 ∧
      r = ⟨c4, true, false, false⟩ := by
  cases h1 : cfg.setPath ["global", "account", "prefix"] (.str p) with
  | error e => simp [set_prefix_op, h1] at h
  | ok c1 =>
  cases h2 : c1.getPath ["global", "terraform", "tfstate_bucket"] with
  | error e => simp [set_prefix_op, h1, h2] at h
  | ok tfv =>
  cases tfv with
  | str tfs =>
      cases h3 : c1.setPath ["global", "terraform", "tfstate_bucket"]
          (.str (pyReplace tfs pfxSentinel p)) with
      | error e => simp [set_prefix_op, h1, h2, h3] at h
      | ok c2 =>
      cases h4 : c2.getPath ["lambda", "alert_processor_config", "source_bucket"] with
      | error e => simp [set_prefix_op, h1, h2, h3, h4] at h
      | ok av =>
      cases av with
      | str as2 =>
          cases h5 : c2.setPath ["lambda", "alert_processor_config", "source_bucket"]
              (.str (pyReplace as2 pfxSentinel p)) with
          | error e => simp [set_prefix_op, h1, h2, h3, h4, h5] at h
          | ok c3 =>
          cases h6 : c3.getPath ["lambda", "rule_processor_config", "source_bucket"] with
          | error e => simp [set_prefix_op, h1, h2, h3, h4, h5, h6] at h
          | ok rv =>
          cases rv with
          | str rs =>
              cases h7 : c3.setPath ["lambda", "rule_processor_config", "source_bucket"]
                  (.str (pyReplace rs pfxSentinel p)) with
              | error e => simp [set_prefix_op, h1, h2, h3, h4, h5, h6, h7] at h
              | ok c4 =>
                  have hr : r = ⟨c4, true, false, false⟩ := by
                    simp only [set_prefix_op, h1, h2, h3, h4, h5, h6, h7,
                      Except.ok.injEq] at h
                    exact h.symm
                  exact ⟨c1, tfs, c2, as2, c3, rs, c4,
                    rfl, h2, h3, h4, h5, h6, h7, hr⟩
          | null => simp [set_prefix_op, h1, h2, h3, h4, h5, h6] at h
          | bool b => simp [set_prefix_op, h1, h2, h3, h4, h5, h6] at h
          | num n => simp [set_prefix_op, h1, h2, h3, h4, h5, h6] at h
          | list xs => simp [set_prefix_op, h1, h2, h3, h4, h5, h6] at h
          | obj ps => simp [set_prefix_op, h1, h2, h3, h4, h5, h6] at h
      | null => simp [set_prefix_op, h1, h2, h3, h4] at h
      | bool b => simp [set_prefix_op, h1, h2, h3, h4] at h
      | num n => simp [set_prefix_op, h1, h2, h3, h4] at h
      | list xs => simp [set_prefix_op, h1, h2, h3, h4] at h
      | obj ps => simp [set_prefix_op, h1, h2, h3, h4] at h
  | null => simp [set_prefix_op, h1, h2] at h
  | bool b => simp [set_prefix_op, h1, h2] at h
  | num n => simp [set_prefix_op, h1, h2] at h
  | list xs => simp [set_prefix_op, h1, h2] at h
  | obj ps => simp [set_prefix_op, h1, h2] at h

/-! ## The prefix field mutation (C10) -/

/-- C10: every argument that passes the `set_prefix` type check and
completes the operation has, beyond the three sentinel-substitution
targets, also set `global.account.prefix` to the new prefix value, and
the configuration was then persisted (`write` ran). -/
theorem set_prefix_sets_prefix_field (cfg : JValue) (p : String) (r : OpResult)
    (h : set_prefix_op cfg (.str p) = .ok r) :
    r.config.getPath ["global", "account", "prefix"] = .ok (.str p) ∧
    r.wrote = true := by
  obtain ⟨c1, tfs, c2, as2, c3, rs, c4, h1, h2, h3, h4, h5, h6, h7, hr⟩ :=
    set_prefix_ok_decomp cfg p r h
  subst hr
  refine ⟨?_, rfl⟩
  have g2 := getPath_setPath_diverge _ _ _ _ ["global", "account", "prefix"] h3 (by decide)
  have g3 := getPath_setPath_diverge _ _ _ _ ["global", "account", "prefix"] h5 (by decide)
  have g4 := getPath_setPath_diverge _ _ _ _ ["global", "account", "prefix"] h7 (by decide)
  show c4.getPath ["global", "account", "prefix"] = .ok (.str p)
  rw [g4, g3, g2]
  exact getPath_setPath_self _ _ _ _ h1

/-- Witness for C10 at the unit-test configuration. -/
theorem set_prefix_sets_prefix_field_witness :
    (okResult (set_prefix_op sampleConfig (.str "abc"))).config.getPath
      ["global", "account", "prefix"] = .ok (.str "abc") ∧
    (okResult (set_prefix_op sampleConfig (.str "abc"))).wrote = true :=
  set_prefix_sets_prefix_field sampleConfig "abc"
    (okResult (set_prefix_op sampleConfig (.str "abc"))) rfl

/-! ## The set_prefix frame (C2) -/

/-- C2 counterexample: `set_prefix("abc")` on the unit-test
configuration changes `global.account.prefix` — a field other than the
three named substitution targets — from the sentinel to "abc", so "every
field of the configuration other than those three is unchanged" is
false on the code. -/
theorem set_prefix_frame_counterexample :
    (stateAfter (set_prefix_op sampleConfig (.str "abc"))).getPath
      ["global", "account", "prefix"] = .ok (.str "abc") ∧
    sampleConfig.getPath ["global", "account", "prefix"]
      = .ok (.str "PREFIX_GOES_HERE") :=
  ⟨rfl, rfl⟩

/-- C2 (amended): a completed `set_prefix` replaces every occurrence of
the sentinel in the three named fields — the Terraform state bucket and
the two processor source buckets — and additionally sets
`global.account.prefix` to the new prefix; every field whose path
diverges from those four is unchanged. -/
theorem set_prefix_replaces_three_fields_frame (cfg : JValue) (p : String) (r : OpResult)
    (h : set_prefix_op cfg (.str p) = .ok r) :
    (∃ tfs, cfg.getPath ["global", "terraform", "tfstate_bucket"] = .ok (.str tfs) ∧
      r.config.getPath ["global", "terraform", "tfstate_bucket"]
        = .ok (.str (pyReplace tfs pfxSentinel p))) ∧
    (∃ as2, cfg.getPath ["lambda", "alert_processor_config", "source_bucket"]
        = .ok (.str as2) ∧
      r.config.getPath ["lambda", "alert_processor_config", "source_bucket"]
        = .ok (.str (pyReplace as2 pfxSentinel p))) ∧
    (∃ rs, cfg.getPath ["lambda", "rule_processor_config", "source_bucket"]
        = .ok (.str rs) ∧
      r.config.getPath ["lambda", "rule_processor_config", "source_bucket"]
        = .ok (.str (pyReplace rs pfxSentinel p))) ∧
    (∀ q, diverges ["global", "account", "prefix"] q = true →
      diverges ["global", "terraform", "tfstate_bucket"] q = true →
      diverges ["lambda", "alert_processor_config", "source_bucket"] q = true →
      diverges ["lambda", "rule_processor_config", "source_bucket"] q = true →
      r.config.getPath q = cfg.getPath q) := by
  obtain ⟨c1, tfs, c2, as2, c3, rs, c4, h1, h2, h3, h4, h5, h6, h7, hr⟩ :=
    set_prefix_ok_decomp cfg p r h
  subst hr
  refine ⟨⟨tfs, ?_, ?_⟩, ⟨as2, ?_, ?_⟩, ⟨rs, ?_, ?_⟩, ?_⟩
  · rw [← getPath_setPath_diverge _ _ _ _
      ["global", "terraform", "tfstate_bucket"] h1 (by decide)]
    exact h2
  · show c4.getPath ["global", "terraform", "tfstate_bucket"] = _
    rw [getPath_setPath_diverge _ _ _ _ ["global", "terraform", "tfstate_bucket"] h7 (by decide),
      getPath_setPath_diverge _ _ _ _ ["global", "terraform", "tfstate_bucket"] h5 (by decide)]
    exact getPath_setPath_self _ _ _ _ h3
  · rw [← getPath_setPath_diverge _ _ _ _
      ["lambda", "alert_processor_config", "source_bucket"] h1 (by decide),
      ← getPath_setPath_diverge _ _ _ _
      ["lambda", "alert_processor_config", "source_bucket"] h3 (by decide)]
    exact h4
  · show c4.getPath ["lambda", "alert_processor_config", "source_bucket"] = _
    rw [getPath_setPath_diverge _ _ _ _
      ["lambda", "alert_processor_config", "source_bucket"] h7 (by decide)]
    exact getPath_setPath_self _ _ _ _ h5
  · rw [← getPath_setPath_diverge _ _ _ _
      ["lambda", "rule_processor_config", "source_bucket"] h1 (by decide),
      ← getPath_setPath_diverge _ _ _ _
      ["lambda", "rule_processor_config", "source_bucket"] h3 (by decide),
      ← getPath_setPath_diverge _ _ _ _
      ["lambda", "rule_processor_config", "source_bucket"] h5 (by decide)]
    exact h6
  · show c4.getPath ["lambda", "rule_processor_config", "source_bucket"] = _
    exact getPath_setPath_self _ _ _ _ h7
  · intro q hq1 hq2 hq3 hq4
    show c4.getPath q = cfg.getPath q
    rw [getPath_setPath_diverge _ _ _ _ q h7 hq4,
      getPath_setPath_diverge _ _ _ _ q h5 hq3,
      getPath_setPath_diverge _ _ _ _ q h3 hq2,
      getPath_setPath_diverge _ _ _ _ q h1 hq1]

/-- Witness for C2 (amended) at the unit-test configuration with
prefix "abc". -/
theorem set_prefix_replaces_three_fields_frame_witness :
    (∃ tfs, sampleConfig.getPath ["global", "terraform", "tfstate_bucket"]
        = .ok (.str tfs) ∧
      (okResult (set_prefix_op sampleConfig (.str "abc"))).config.getPath
        ["global", "terraform", "tfstate_bucket"]
        = .ok (.str (pyReplace tfs pfxSentinel "abc"))) ∧
    (∃ as2, sampleConfig.getPath ["lambda", "alert_processor_config", "source_bucket"]
        = .ok (.str as2) ∧
      (okResult (set_prefix_op sampleConfig (.str "abc"))).config.getPath
        ["lambda", "alert_processor_config", "source_bucket"]
        = .ok (.str (pyReplace as2 pfxSentinel "abc"))) ∧
    (∃ rs, sampleConfig.getPath ["lambda", "rule_processor_config", "source_bucket"]
        = .ok (.str rs) ∧
      (okResult (set_prefix_op sampleConfig (.str "abc"))).config.getPath
        ["lambda", "rule_processor_config", "source_bucket"]
        = .ok (.str (pyReplace rs pfxSentinel "abc"))) ∧
    (∀ q, diverges ["global", "account", "prefix"] q = true →
      diverges ["global", "terraform", "tfstate_bucket"] q = true →
      diverges ["lambda", "alert_processor_config", "source_bucket"] q = true →
      diverges ["lambda", "rule_processor_config", "source_bucket"] q = true →
      (okResult (set_prefix_op sampleConfig (.str "abc"))).config.getPath q
        = sampleConfig.getPath q) :=
  set_prefix_replaces_three_fields_frame sampleConfig "abc"
    (okResult (set_prefix_op sampleConfig (.str "abc"))) rfl

/-! ## Idempotence of generate_athena (C5) -/

theorem generate_athena_cfg_error_state (cfg : JValue) (e : PyErr × JValue)
    (h : generate_athena_cfg cfg = .error e) : e.2 = cfg := by
  cases h1 : cfg.getItem "lambda" with
  | error e1 =>
      simp only [generate_athena_cfg, h1, Except.error.injEq] at h
      rw [← h]
  | ok lam =>
      cases h2 : pyContains lam athenaKey with
      | error e2 =>
          simp only [generate_athena_cfg, h1, h2, Except.error.injEq] at h
          rw [← h]
      | ok b =>
          cases b with
          | true => simp [generate_athena_cfg, h1, h2] at h
          | false =>
              cases h3 : cfg.getPath ["global", "account", "prefix"] with
              | error e3 =>
                  simp only [generate_athena_cfg, h1, h2, h3, Except.error.injEq] at h
                  rw [← h]
              | ok pv =>
                  cases h4 : isStrEq pv pfxSentinel with
                  | true =>
                      cases h5 : cfg.setPath ["lambda", athenaKey]
                          (athenaTemplate (.str "PREFIX_GOES_HERE.streamalert.source")) with
                      | error e5 =>
                          simp only [generate_athena_cfg, h1, h2, h3, h4, if_true,
                            h5, Except.error.injEq] at h
                          rw [← h]
                      | ok c => simp [generate_athena_cfg, h1, h2, h3, h4, h5] at h
                  | false =>
                      cases h5 : cfg.getPath
                          ["lambda", "rule_processor_config", "source_bucket"] with
                      | error e5 =>
                          simp only [generate_athena_cfg, h1, h2, h3, h4,
                            Bool.false_eq_true, if_false, h5, Except.error.injEq] at h
                          rw [← h]
                      | ok rb =>
                          cases h6 : cfg.setPath ["lambda", athenaKey] (athenaTemplate rb) with
                          | error e6 =>
                              simp only [generate_athena_cfg, h1, h2, h3, h4,
                                Bool.false_eq_true, if_false, h5, h6,
                                Except.error.injEq] at h
                              rw [← h]
                          | ok c => simp [generate_athena_cfg, h1, h2, h3, h4, h5, h6] at h

theorem generate_athena_cfg_setPath_second (cfg tmpl c : JValue)
    (hset : cfg.setPath ["lambda", athenaKey] tmpl = .ok c) :
    generate_athena_cfg c = .ok ⟨c, false, true, false⟩ := by
  cases cfg with
  | obj ps =>
      cases hl : lookupKey ps "lambda" with
      | none => simp [JValue.setPath, hl] at hset
      | some w =>
          cases w with
          | obj qs =>
              have hw : (JValue.obj qs).setPath [athenaKey] tmpl
                  = .ok (.obj (setKeyList qs athenaKey tmpl)) := rfl
              simp only [JValue.setPath, hl, hw, Except.ok.injEq] at hset
              subst hset
              simp [generate_athena_cfg, JValue.getItem, pyContains,
                lookupKey_setKeyList_self]
          | null => simp [JValue.setPath, hl] at hset
          | bool b => simp [JValue.setPath, hl] at hset
          | num n => simp [JValue.setPath, hl] at hset
          | str s => simp [JValue.setPath, hl] at hset
          | list xs => simp [JValue.setPath, hl] at hset
  | null => simp [JValue.setPath] at hset
  | bool b => simp [JValue.setPath] at hset
  | num n => simp [JValue.setPath] at hset
  | str s => simp [JValue.setPath] at hset
  | list xs => simp [JValue.setPath] at hset

theorem generate_athena_cfg_ok_second (cfg : JValue) (r : OpResult)
    (h : generate_athena_cfg cfg = .ok r) :
    generate_athena_cfg r.config = .ok ⟨r.config, false, true, false⟩ := by
  cases h1 : cfg.getItem "lambda" with
  | error e1 => simp [generate_athena_cfg, h1] at h
  | ok lam =>
      cases h2 : pyContains lam athenaKey with
      | error e2 => simp [generate_athena_cfg, h1, h2] at h
      | ok b =>
          cases b with
          | true =>
              have hr : r = ⟨cfg, false, true, false⟩ := by
                simp only [generate_athena_cfg, h1, h2, Except.ok.injEq] at h
                exact h.symm
              subst hr
              simp [generate_athena_cfg, h1, h2]
          | false =>
              cases h3 : cfg.getPath ["global", "account", "prefix"] with
              | error e3 => simp [generate_athena_cfg, h1, h2, h3] at h
              | ok pv =>
                  cases h4 : isStrEq pv pfxSentinel with
                  | true =>
                      cases h5 : cfg.setPath ["lambda", athenaKey]
                          (athenaTemplate (.str "PREFIX_GOES_HERE.streamalert.source")) with
                      | error e5 => simp [generate_athena_cfg, h1, h2, h3, h4, h5] at h
                      | ok c =>
                          have hr : r = ⟨c, true, false, false⟩ := by
                            simp only [generate_athena_cfg, h1, h2, h3, h4, if_true,
                              h5, Except.ok.injEq] at h
                            exact h.symm
                          subst hr
                          exact generate_athena_cfg_setPath_second cfg _ c h5
                  | false =>
                      cases h5 : cfg.getPath
                          ["lambda", "rule_processor_config", "source_bucket"] with
                      | error e5 => simp [generate_athena_cfg, h1, h2, h3, h4, h5] at h
                      | ok rb =>
                          cases h6 : cfg.setPath ["lambda", athenaKey] (athenaTemplate rb) with
                          | error e6 => simp [generate_athena_cfg, h1, h2, h3, h4, h5, h6] at h
                          | ok c =>
                              have hr : r = ⟨c, true, false, false⟩ := by
                                simp only [generate_athena_cfg, h1, h2, h3, h4,
                                  Bool.false_eq_true, if_false, h5, h6,
                                  Except.ok.injEq] at h
                                exact h.symm
                              subst hr
                              exact generate_athena_cfg_setPath_second cfg _ c h6

/-- C5: `generate_athena` is idempotent.  When the Athena refresh
configuration already exists under "lambda" the call is a warn-and-
return no-op — same configuration, no write, no error.  Consequently
two calls in a row (from any starting state) leave the same
configuration, in memory and on disk, after the second call as after
the first: the second call performs no write at all. -/
theorem generate_athena_idempotent :
    (∀ cfg lam, cfg.getItem "lambda" = .ok lam →
      pyContains lam athenaKey = .ok true →
      generate_athena_cfg cfg = .ok ⟨cfg, false, true, false⟩) ∧
    (∀ cfg, stateAfter (generate_athena_cfg (stateAfter (generate_athena_cfg cfg)))
        = stateAfter (generate_athena_cfg cfg) ∧
      wroteOf (generate_athena_cfg (stateAfter (generate_athena_cfg cfg))) = false) := by
  constructor
  · intro cfg lam h1 h2
    simp [generate_athena_cfg, h1, h2]
  · intro cfg
    cases hg : generate_athena_cfg cfg with
    | error e =>
        have he : e.2 = cfg := generate_athena_cfg_error_state cfg e hg
        simp [stateAfter, wroteOf, he, hg]
    | ok r =>
        have h2 := generate_athena_cfg_ok_second cfg r hg
        simp [stateAfter, wroteOf, h2]

/-- Witness for C5: on a configuration that already holds an Athena
section the call no-ops with a warning, and two calls in a row starting
from the unit-test configuration agree after the first call. -/
theorem generate_athena_idempotent_witness :
    generate_athena_cfg tfConfigExample = .ok ⟨tfConfigExample, false, true, false⟩ ∧
    stateAfter (generate_athena_cfg (stateAfter (generate_athena_cfg sampleConfig)))
      = stateAfter (generate_athena_cfg sampleConfig) :=
  ⟨generate_athena_idempotent.1 tfConfigExample
      (.obj [("athena_partition_refresh_config", athenaConfigExample)]) rfl rfl,
    (generate_athena_idempotent.2 sampleConfig).1⟩

/-! ## Enabling the Athena refresh (C6) -/

/-- C6: when no Athena refresh configuration exists under "lambda",
`set_athena_lambda_enable` reports an error, performs no write, creates
nothing and leaves the configuration entirely unchanged; when the
Athena configuration exists, it sets the enabled flag to true, writes,
and changes nothing whose path diverges from the flag. -/
theorem set_athena_lambda_enable_spec (cfg lam : JValue)
    (hlam : cfg.getItem "lambda" = .ok lam) :
    (pyContains lam athenaKey = .ok false →
      set_athena_lambda_enable cfg = .ok ⟨cfg, false, false, true⟩) ∧
    (pyContains lam athenaKey = .ok true →
      ∀ r, set_athena_lambda_enable cfg = .ok r →
        r.config.getPath ["lambda", athenaKey, "enabled"] = .ok (.bool true) ∧
        r.wrote = true ∧
        ∀ q, diverges ["lambda", athenaKey, "enabled"] q = true →
          r.config.getPath q = cfg.getPath q) := by
  constructor
  · intro hc
    simp [set_athena_lambda_enable, hlam, hc]
  · intro hc r hr
    cases hset : cfg.setPath ["lambda", athenaKey, "enabled"] (.bool true) with
    | error e => simp [set_athena_lambda_enable, hlam, hc, hset] at hr
    | ok c =>
        have hrr : r = ⟨c, true, false, false⟩ := by
          simp only [set_athena_lambda_enable, hlam, hc, hset, Except.ok.injEq] at hr
          exact hr.symm
        subst hrr
        exact ⟨getPath_setPath_self _ _ _ _ hset, rfl,
          fun q hq => getPath_setPath_diverge _ _ _ _ q hset hq⟩

/-- Witness for C6: calling the enable operation before the Athena
section exists fails and changes nothing; calling it on a configuration
that has the section flips the flag to true. -/
theorem set_athena_lambda_enable_spec_witness :
    set_athena_lambda_enable sampleConfig = .ok ⟨sampleConfig, false, false, true⟩ ∧
    (okResult (set_athena_lambda_enable tfConfigExample)).config.getPath
      ["lambda", athenaKey, "enabled"] = .ok (.bool true) :=
  ⟨(set_athena_lambda_enable_spec sampleConfig sampleLambda rfl).1 rfl,
    ((set_athena_lambda_enable_spec tfConfigExample
        (.obj [("athena_partition_refresh_config", athenaConfigExample)]) rfl).2 rfl
      (okResult (set_athena_lambda_enable tfConfigExample)) rfl).1⟩

theorem generate_athena_tf_ok_decomp (cfg m : JValue)
    (h : generate_athena_tf cfg = .ok m) :
    ∃ lam ac gl infra met em : JValue, ∃ rtPairs : List (String × JValue),
    ∃ buckets : List JValue, ∃ handler mem tmo sb sk ll ri cv pv : JValue,
      cfg.getItem "lambda" = .ok lam ∧
      lam.getItem athenaKey = .ok ac ∧
      cfg.getItem "global" = .ok gl ∧
      gl.dictGet "infrastructure" (.obj []) = .ok infra ∧
      infra.dictGet "metrics" (.obj []) = .ok met ∧
      met.dictGet "enabled" (.bool false) = .ok em ∧
      ac.getItem "refresh_type" = .ok (.obj rtPairs) ∧
      collect_buckets rtPairs [] = .ok buckets ∧
      ac.getItem "handler" = .ok handler ∧
      ac.dictGet "memory" (.str "128") = .ok mem ∧
      ac.dictGet "timeout" (.str "60") = .ok tmo ∧
      ac.getItem "source_bucket" = .ok sb ∧
      ac.getItem "source_object_key" = .ok sk ∧
      ac.dictGet "log_level" (.str "info") = .ok ll ∧
      ac.dictGet "refresh_interval" (.str "rate(10 minutes)") = .ok ri ∧
      ac.getItem "current_version" = .ok cv ∧
      cfg.getPath ["global", "account", "prefix"] = .ok pv ∧
      m = athenaModuleFields handler mem tmo sb sk ll buckets ri cv em pv := by
  cases h1 : cfg.getItem "lambda" with
  | error e => simp [generate_athena_tf, h1] at h
  | ok lam =>
  cases h2 : lam.getItem athenaKey with
  | error e => simp [generate_athena_tf, h1, h2] at h
  | ok ac =>
  cases h3 : cfg.getItem "global" with
  | error e => simp [generate_athena_tf, h1, h2, h3] at h
  | ok gl =>
  cases h4 : gl.dictGet "infrastructure" (.obj []) with
  | error e => simp [generate_athena_tf, h1, h2, h3, h4] at h
  | ok infra =>
  cases h5 : infra.dictGet "metrics" (.obj []) with
  | error e => simp [generate_athena_tf, h1, h2, h3, h4, h5] at h
  | ok met =>
  cases h6 : met.dictGet "enabled" (.bool false) with
  | error e => simp [generate_athena_tf, h1, h2, h3, h4, h5, h6] at h
  | ok em =>
  cases h7 : ac.getItem "refresh_type" with
  | error e => simp [generate_athena_tf, h1, h2, h3, h4, h5, h6, h7] at h
  | ok rtv =>
  cases rtv with
  | null => simp [generate_athena_tf, h1, h2, h3, h4, h5, h6, h7] at h
  | bool b => simp [generate_athena_tf, h1, h2, h3, h4, h5, h6, h7] at h
  | num n => simp [generate_athena_tf, h1, h2, h3, h4, h5, h6, h7] at h
  | str s => simp [generate_athena_tf, h1, h2, h3, h4, h5, h6, h7] at h
  | list xs => simp [generate_athena_tf, h1, h2, h3, h4, h5, h6, h7] at h
  | obj rtPairs =>
  cases h8 : collect_buckets rtPairs [] with
  | error e => simp [generate_athena_tf, h1, h2, h3, h4, h5, h6, h7, h8] at h
  | ok buckets =>
  cases h9 : ac.getItem "handler" with
  | error e => simp [generate_athena_tf, h1, h2, h3, h4, h5, h6, h7, h8, h9] at h
  | ok handler =>
  cases h10 : ac.dictGet "memory" (.str "128") with
  | error e => simp [generate_athena_tf, h1, h2, h3, h4, h5, h6, h7, h8, h9, h10] at h
  | ok mem =>
  cases h11 : ac.dictGet "timeout" (.str "60") with
  | error e => simp [generate_athena_tf, h1, h2, h3, h4, h5, h6, h7, h8, h9, h10, h11] at h
  | ok tmo =>
  cases h12 : ac.getItem "source_bucket" with
  | error e => simp [generate_athena_tf, h1, h2, h3, h4, h5, h6, h7, h8, h9, h10, h11, h12] at h
  | ok sb =>
  cases h13 : ac.getItem "source_object_key" with
  | error e => simp [generate_athena_tf, h1, h2, h3, h4, h5, h6, h7, h8, h9, h10, h11, h12, h13] at h
  | ok sk =>
  cases h14 : ac.dictGet "log_level" (.str "info") with
  | error e => simp [generate_athena_tf, h1, h2, h3, h4, h5, h6, h7, h8, h9, h10, h11, h12, h13, h14] at h
  | ok ll =>
  cases h15 : ac.dictGet "refresh_interval" (.str "rate(10 minutes)") with
  | error e => simp [generate_athena_tf, h1, h2, h3, h4, h5, h6, h7, h8, h9, h10, h11, h12, h13, h14, h15] at h
  | ok ri =>
  cases h16 : ac.getItem "current_version" with
  | error e => simp [generate_athena_tf, h1, h2, h3, h4, h5, h6, h7, h8, h9, h10, h11, h12, h13, h14, h15, h16] at h
  | ok cv =>
  cases h17 : cfg.getPath ["global", "account", "prefix"] with
  | error e => simp [generate_athena_tf, h1, h2, h3, h4, h5, h6, h7, h8, h9, h10, h11, h12, h13, h14, h15, h16, h17] at h
  | ok pv =>
  have hm : m = athenaModuleFields handler mem tmo sb sk ll buckets ri cv em pv := by
    simp only [generate_athena_tf, h1, h2, h3, h4, h5, h6, h7, h8, h9, h10, h11, h12, h13, h14, h15, h16, h17, Except.ok.injEq] at h
    exact h.symm
  exact ⟨lam, ac, gl, infra, met, em, rtPairs, buckets, handler, mem, tmo, sb, sk, ll,
    ri, cv, pv, rfl, h2, rfl, h4, h5, h6, h7, h8, h9, h10, h11, h12, h13, h14, h15,
    h16, rfl, hm⟩

/-! ## Python set semantics for the bucket union (C7) -/

theorem jflatEq_eq_true_iff (x y : JValue) (hx : jhashable x = true) :
    (jflatEq y x = true) ↔ y = x := by
  cases x with
  | list xs => exact absurd hx (by simp [jhashable])
  | obj ps => exact absurd hx (by simp [jhashable])
  | null => cases y <;> simp [jflatEq]
  | bool b => cases y <;> simp [jflatEq]
  | num n => cases y <;> simp [jflatEq]
  | str s => cases y <;> simp [jflatEq]

theorem pySetInsert_cond (acc : List JValue) (x : JValue) (hx : jhashable x = true) :
    ((acc.any fun y => jflatEq y x) = true) ↔ x ∈ acc := by
  rw [List.any_eq_true]
  constructor
  · rintro ⟨y, hy, hz⟩
    rw [(jflatEq_eq_true_iff x y hx).mp hz] at hy
    exact hy
  · intro hxa
    exact ⟨x, hxa, (jflatEq_eq_true_iff x x hx).mpr rfl⟩

theorem mem_pySetInsert (acc : List JValue) (x z : JValue) (hx : jhashable x = true) :
    z ∈ pySetInsert acc x ↔ z ∈ acc ∨ z = x := by
  rw [pySetInsert]
  by_cases hxa : x ∈ acc
  · rw [if_pos ((pySetInsert_cond acc x hx).mpr hxa)]
    constructor
    · exact Or.inl
    · rintro (hz | rfl)
      · exact hz
      · exact hxa
  · rw [if_neg (fun hc => hxa ((pySetInsert_cond acc x hx).mp hc))]
    simp [List.mem_append]

theorem nodup_pySetInsert (acc : List JValue) (x : JValue) (hx : jhashable x = true)
    (h : acc.Nodup) : (pySetInsert acc x).Nodup := by
  rw [pySetInsert]
  by_cases hxa : x ∈ acc
  · rw [if_pos ((pySetInsert_cond acc x hx).mpr hxa)]
    exact h
  · rw [if_neg (fun hc => hxa ((pySetInsert_cond acc x hx).mp hc))]
    simp [List.nodup_append, h, hxa]

theorem foldl_pySetInsert_spec :
    ∀ (elems : List JValue), (∀ x ∈ elems, jhashable x = true) →
      ∀ acc z, (z ∈ elems.foldl pySetInsert acc ↔ z ∈ acc ∨ z ∈ elems) ∧
        (acc.Nodup → (elems.foldl pySetInsert acc).Nodup) := by
  intro elems
  induction elems with
  | nil => intro hh acc z; simp
  | cons x xs ih =>
      intro hh acc z
      have hx : jhashable x = true := hh x (List.mem_cons_self x xs)
      have hxs : ∀ y ∈ xs, jhashable y = true :=
        fun y hy => hh y (List.mem_cons_of_mem x hy)
      rw [List.foldl_cons]
      constructor
      · rw [(ih hxs (pySetInsert acc x) z).1, mem_pySetInsert acc x z hx]
        constructor
        · rintro ((hz | hzx) | hz)
          · exact Or.inl hz
          · rw [hzx]; exact Or.inr (List.mem_cons_self x xs)
          · exact Or.inr (List.mem_cons_of_mem x hz)
        · rintro (hz | hz)
          · exact Or.inl (Or.inl hz)
          · rcases List.mem_cons.mp hz with hzx | hz2
            · exact Or.inl (Or.inr hzx)
            · exact Or.inr hz2
      · intro hnd
        exact (ih hxs (pySetInsert acc x) z).2 (nodup_pySetInsert acc x hx hnd)

theorem pyToElems_hashable (v : JValue) (elems : List JValue)
    (h : pyToElems v = .ok elems) : ∀ x ∈ elems, jhashable x = true := by
  cases v with
  | list xs =>
      simp only [pyToElems] at h
      split at h
      · next hall =>
          injection h with h2
          subst h2
          intro x hx
          exact List.all_eq_true.mp hall x hx
      · exact Except.noConfusion h
  | obj ps =>
      simp only [pyToElems, Except.ok.injEq] at h
      subst h
      intro x hx
      rw [List.mem_map] at hx
      obtain ⟨p, hp, hpx⟩ := hx
      rw [← hpx]
      rfl
  | str s =>
      simp only [pyToElems, Except.ok.injEq] at h
      subst h
      intro x hx
      rw [List.mem_map] at hx
      obtain ⟨c, hc, hcx⟩ := hx
      rw [← hcx]
      rfl
  | null => exact Except.noConfusion h
  | bool b => exact Except.noConfusion h
  | num n => exact Except.noConfusion h

theorem collect_buckets_spec :
    ∀ (ps : List (String × JValue)) (acc bs : List JValue),
      collect_buckets ps acc = .ok bs →
      (∀ z, z ∈ bs ↔ z ∈ acc ∨ ∃ p ∈ ps, ∃ elems, pyToElems p.2 = .ok elems ∧ z ∈ elems) ∧
      (acc.Nodup → bs.Nodup) := by
  intro ps
  induction ps with
  | nil =>
      intro acc bs h
      rw [collect_buckets] at h
      injection h with h2
      subst h2
      constructor
      · intro z; simp
      · exact id
  | cons p ps ih =>
      intro acc bs h
      cases he : pyToElems p.2 with
      | error e => simp [collect_buckets, he] at h
      | ok elems =>
          simp only [collect_buckets, he] at h
          have hh := pyToElems_hashable p.2 elems he
          obtain ⟨hmem, hnd⟩ := ih (elems.foldl pySetInsert acc) bs h
          constructor
          · intro z
            rw [hmem z, (foldl_pySetInsert_spec elems hh acc z).1]
            constructor
            · rintro ((hz | hz) | ⟨q, hq, elems2, he2, hz⟩)
              · exact Or.inl hz
              · exact Or.inr ⟨p, List.mem_cons_self p ps, elems, he, hz⟩
              · exact Or.inr ⟨q, List.mem_cons_of_mem p hq, elems2, he2, hz⟩
            · rintro (hz | ⟨q, hq, elems2, he2, hz⟩)
              · exact Or.inl (Or.inl hz)
              · rcases List.mem_cons.mp hq with rfl | hq2
                · rw [he] at he2
                  injection he2 with he2
                  subst he2
                  exact Or.inl (Or.inr hz)
                · exact Or.inr ⟨q, hq2, elems2, he2, hz⟩
          · intro hndacc
            exact hnd ((foldl_pySetInsert_spec elems hh acc (.null)).2 hndacc)

theorem athenaModuleFields_buckets (handler mem tmo sb sk ll : JValue)
    (buckets : List JValue) (ri cv em pv : JValue) :
    (athenaModuleFields handler mem tmo sb sk ll buckets ri cv em pv).getPath
      ["module", "stream_alert_athena", "athena_data_buckets"] = .ok (.list buckets) := by
  rfl

theorem athenaModuleFields_metrics (handler mem tmo sb sk ll : JValue)
    (buckets : List JValue) (ri cv em pv : JValue) :
    (athenaModuleFields handler mem tmo sb sk ll buckets ri cv em pv).getPath
      ["module", "stream_alert_athena", "enable_metrics"] = .ok em := by
  rfl

/-- C7: for every Athena configuration whose `refresh_type` mapping
holds bucket lists, the generated module's `athena_data_buckets` list
has no duplicate elements and its underlying set is exactly the union
of the bucket sets of all refresh-type entries. -/
theorem athena_data_buckets_union_nodup (cfg m : JValue)
    (rtPairs : List (String × JValue))
    (hok : generate_athena_tf cfg = .ok m)
    (hrt : cfg.getPath ["lambda", athenaKey, "refresh_type"] = .ok (.obj rtPairs))
    (hlists : ∀ p ∈ rtPairs, ∃ ss : List String, p.2 = .list (ss.map JValue.str)) :
    ∃ bs : List JValue,
      m.getPath ["module", "stream_alert_athena", "athena_data_buckets"]
        = .ok (.list bs) ∧
      bs.Nodup ∧
      ∀ z, z ∈ bs ↔ ∃ p ∈ rtPairs, ∃ xs, p.2 = .list xs ∧ z ∈ xs := by
  obtain ⟨lam, ac, gl, infra, met, em, rtPairs0, buckets, handler, mem, tmo, sb, sk, ll,
    ri, cv, pv, h1, h2, h3, h4, h5, h6, h7, h8, h9, h10, h11, h12, h13, h14, h15,
    h16, h17, hm⟩ := generate_athena_tf_ok_decomp cfg m hok
  have hchain : cfg.getPath ["lambda", athenaKey, "refresh_type"] = .ok (.obj rtPairs0) := by
    simp [JValue.getPath, h1, h2, h7]
  rw [hchain] at hrt
  injection hrt with hrt
  injection hrt with hrt
  subst hrt
  subst hm
  obtain ⟨hmem, hnd⟩ := collect_buckets_spec _ [] buckets h8
  refine ⟨buckets, athenaModuleFields_buckets handler mem tmo sb sk ll buckets ri cv em pv,
    hnd (List.nodup_nil), ?_⟩
  intro z
  rw [hmem z]
  constructor
  · rintro (hz | ⟨p, hp, elems, he, hz⟩)
    · simp at hz
    · obtain ⟨ss, hss⟩ := hlists p hp
      have hcomp : pyToElems p.2 = .ok (ss.map JValue.str) := by
        rw [hss]
        simp [pyToElems, jhashable, List.all_eq_true]
      rw [hcomp] at he
      injection he with he
      subst he
      exact ⟨p, hp, ss.map JValue.str, hss, hz⟩
  · rintro ⟨p, hp, xs, hxs, hz⟩
    obtain ⟨ss, hss⟩ := hlists p hp
    have hxss : xs = ss.map JValue.str := by
      rw [hss] at hxs
      injection hxs with hxs
      exact hxs.symm
    have hcomp : pyToElems p.2 = .ok xs := by
      rw [hss, hxss]
      simp [pyToElems, jhashable, List.all_eq_true]
    exact Or.inr ⟨p, hp, xs, hcomp, hz⟩

/-- Witness for C7 at the specification's worked example: the bucket
list is exactly the three distinct buckets. -/
theorem athena_data_buckets_union_nodup_witness :
    generate_athena_tf tfConfigExample
      = .ok ((generate_athena_tf tfConfigExample).toOption.getD .null) ∧
    ∃ bs : List JValue,
      ((generate_athena_tf tfConfigExample).toOption.getD .null).getPath
        ["module", "stream_alert_athena", "athena_data_buckets"] = .ok (.list bs) ∧
      bs.Nodup ∧
      ∀ z, z ∈ bs ↔ ∃ p ∈ [("add_hive_partition",
          JValue.list [.str "bucket-a", .str "bucket-b"]),
        ("repair_hive_table", JValue.list [.str "bucket-b", .str "bucket-c"])],
        ∃ xs, p.2 = .list xs ∧ z ∈ xs := by
  refine ⟨rfl, ?_⟩
  refine athena_data_buckets_union_nodup tfConfigExample
    ((generate_athena_tf tfConfigExample).toOption.getD .null) _ rfl rfl ?_
  intro p hp
  rcases List.mem_cons.mp hp with hp1 | hp2
  · exact ⟨["bucket-a", "bucket-b"], by rw [hp1]; rfl⟩
  · rcases List.mem_cons.mp hp2 with hp1 | hp3
    · exact ⟨["bucket-b", "bucket-c"], by rw [hp1]; rfl⟩
    · exact absurd hp3 (List.not_mem_nil p)

/-! ## The metrics default chain (C8) and the missing Athena section (C9) -/

/-- C8 counterexample: in a configuration with a complete Athena
section but no "global" section — so a segment of the path
`global.infrastructure.metrics.enabled` (namely "global") is absent —
the generator raises the missing-key error on `config['global']`
instead of setting the metrics flag to false. -/
theorem enable_metrics_missing_global_counterexample :
    generate_athena_tf tfConfigNoGlobal = .error (.keyError "global") := rfl

/-- C8 (amended): when generation succeeds — which requires the
"global" section to be present — the metrics flag of the module equals
the stored `infrastructure.metrics.enabled` value when that full path
exists below "global", and is false when any of those three inner
segments is absent; when "global" itself is absent the generator
instead raises a missing-key error (see the counterexample). -/
theorem enable_metrics_default_spec (cfg m gl : JValue)
    (hok : generate_athena_tf cfg = .ok m)
    (hgl : cfg.getItem "global" = .ok gl) :
    (∀ e, gl.getPath ["infrastructure", "metrics", "enabled"] = .error e →
      m.getPath ["module", "stream_alert_athena", "enable_metrics"]
        = .ok (.bool false)) ∧
    (∀ ev, gl.getPath ["infrastructure", "metrics", "enabled"] = .ok ev →
      m.getPath ["module", "stream_alert_athena", "enable_metrics"] = .ok ev) := by
  obtain ⟨lam, ac, gl0, infra, met, em, rtPairs0, buckets, handler, mem, tmo, sb, sk, ll,
    ri, cv, pv, h1, h2, h3, h4, h5, h6, h7, h8, h9, h10, h11, h12, h13, h14, h15,
    h16, h17, hm⟩ := generate_athena_tf_ok_decomp cfg m hok
  rw [hgl] at h3
  injection h3 with h3
  subst h3
  subst hm
  have hfield := athenaModuleFields_metrics handler mem tmo sb sk ll buckets ri cv em pv
  cases gl with
  | obj gps =>
      simp only [JValue.dictGet, Except.ok.injEq] at h4
      cases li : lookupKey gps "infrastructure" with
      | none =>
          rw [li] at h4
          simp only [Option.getD_none] at h4
          subst h4
          simp only [JValue.dictGet, Except.ok.injEq, lookupKey,
            Option.getD_none] at h5
          subst h5
          simp only [JValue.dictGet, Except.ok.injEq, lookupKey,
            Option.getD_none] at h6
          subst h6
          refine ⟨fun e he => hfield, fun ev hev => ?_⟩
          rw [getPath_obj_cons_none _ _ _ li] at hev
          exact Except.noConfusion hev
      | some iv =>
          rw [li] at h4
          simp only [Option.getD_some] at h4
          subst h4
          cases iv with
          | obj ips =>
              simp only [JValue.dictGet, Except.ok.injEq] at h5
              cases lm : lookupKey ips "metrics" with
              | none =>
                  rw [lm] at h5
                  simp only [Option.getD_none] at h5
                  subst h5
                  simp only [JValue.dictGet, Except.ok.injEq, lookupKey,
                    Option.getD_none] at h6
                  subst h6
                  refine ⟨fun e he => hfield, fun ev hev => ?_⟩
                  rw [getPath_obj_cons _ _ _ _ li, getPath_obj_cons_none _ _ _ lm] at hev
                  exact Except.noConfusion hev
              | some mv =>
                  rw [lm] at h5
                  simp only [Option.getD_some] at h5
                  subst h5
                  cases mv with
                  | obj mps =>
                      simp only [JValue.dictGet, Except.ok.injEq] at h6
                      cases le : lookupKey mps "enabled" with
                      | none =>
                          rw [le] at h6
                          simp only [Option.getD_none] at h6
                          subst h6
                          refine ⟨fun e he => hfield, fun ev hev => ?_⟩
                          rw [getPath_obj_cons _ _ _ _ li, getPath_obj_cons _ _ _ _ lm,
                            getPath_obj_cons_none _ _ _ le] at hev
                          exact Except.noConfusion hev
                      | some ev0 =>
                          rw [le] at h6
                          simp only [Option.getD_some] at h6
                          subst h6
                          have hpath : (JValue.obj gps).getPath
                              ["infrastructure", "metrics", "enabled"] = .ok ev0 := by
                            rw [getPath_obj_cons _ _ _ _ li, getPath_obj_cons _ _ _ _ lm,
                              getPath_obj_cons _ _ _ _ le]
                            rfl
                          constructor
                          · intro e he
                            rw [hpath] at he
                            exact Except.noConfusion he
                          · intro ev hev
                            rw [hpath] at hev
                            injection hev with hev
                            rw [← hev]
                            exact hfield
                  | null => simp [JValue.dictGet] at h6
                  | bool b => simp [JValue.dictGet] at h6
                  | num n => simp [JValue.dictGet] at h6
                  | str s => simp [JValue.dictGet] at h6
                  | list xs => simp [JValue.dictGet] at h6
          | null => simp [JValue.dictGet] at h5
          | bool b => simp [JValue.dictGet] at h5
          | num n => simp [JValue.dictGet] at h5
          | str s => simp [JValue.dictGet] at h5
          | list xs => simp [JValue.dictGet] at h5
  | null => simp [JValue.dictGet] at h4
  | bool b => simp [JValue.dictGet] at h4
  | num n => simp [JValue.dictGet] at h4
  | str s => simp [JValue.dictGet] at h4
  | list xs => simp [JValue.dictGet] at h4

/-- Witness for C8 (amended): the sample global section has an
"infrastructure" entry without "metrics", so the generated module's
metrics flag is false. -/
theorem enable_metrics_default_spec_witness :
    ((generate_athena_tf tfConfigExample).toOption.getD .null).getPath
      ["module", "stream_alert_athena", "enable_metrics"] = .ok (.bool false) :=
  (enable_metrics_default_spec tfConfigExample
      ((generate_athena_tf tfConfigExample).toOption.getD .null) sampleGlobal rfl rfl).1
    (.keyError "metrics") rfl

/-- C9 counterexample: with the Athena sub-structure absent under
"lambda", the generator fails by crashing on the unchecked missing-key
lookup `config['lambda']['athena_partition_refresh_config']` — the
error is that lookup's `KeyError`, not a dedicated "missing Athena
configuration" error. -/
theorem generate_athena_tf_keyerror_counterexample :
    generate_athena_tf tfConfigNoAthena = .error (.keyError athenaKey) ∧
    generate_athena_tf tfConfigNoAthena
      ≠ .error PyErr.missingAthenaConfiguration := by
  refine ⟨rfl, fun h => ?_⟩
  have h3 : (Except.error (PyErr.keyError athenaKey) : Except PyErr JValue)
      = Except.error PyErr.missingAthenaConfiguration := h
  injection h3 with h4
  exact PyErr.noConfusion h4

/-- C9 (amended): whenever the "lambda" section is present but its
Athena refresh configuration key is absent, `generate_athena` of the
Terraform generator fails — it produces no module dict — and the
failure is the `KeyError` raised by the unchecked lookup of the Athena
key. -/
theorem generate_athena_tf_missing_athena_fails (cfg lam : JValue)
    (hlam : cfg.getItem "lambda" = .ok lam)
    (hmiss : lam.getItem athenaKey = .error (.keyError athenaKey)) :
    generate_athena_tf cfg = .error (.keyError athenaKey) := by
  simp [generate_athena_tf, hlam, hmiss]

/-- Witness for C9 (amended) at the concrete no-Athena configuration. -/
theorem generate_athena_tf_missing_athena_fails_witness :
    generate_athena_tf tfConfigNoAthena = .error (.keyError athenaKey) :=
  generate_athena_tf_missing_athena_fails tfConfigNoAthena (.obj []) rfl rfl
